import Mathlib

/-!
Shallow embedding of the conversation-state management and message-send
protocol of the Zenith chat client (src/src/context/ZenithContext.tsx).

Conventions of the embedding:
* timestamps (JavaScript `Date` values) are epoch milliseconds, modelled as `Nat`;
  each `new Date()` call site receives the current instant as an explicit argument;
* message/conversation ids (produced by `nanoid()`) are opaque strings supplied
  as explicit arguments at each call site;
* JavaScript truthiness tests on nullable strings (`!x`, `x || y`) are modelled
  explicitly: `null` and the empty string are falsy;
* React's `useReducer` dispatch is modelled by applying `zenithReducer` to the
  evolving store state, while reads of the `state` variable inside an event
  handler use the render-time snapshot that the closure captured (this
  distinction is what the source code actually executes).
-/

namespace Zenith

/-- A chat message (src/types: `Message`). `role` is `"user"` or `"assistant"`. -/
structure Message where
  id : String
  role : String
  content : String
  createdAt : Nat
deriving Repr, DecidableEq

/-- A conversation thread (src/types: `Conversation`). -/
structure Conversation where
  id : String
  title : String
  messages : List Message
  createdAt : Nat
  updatedAt : Nat
deriving Repr, DecidableEq

/-- The store state (src/types: `ZenithState`). `loading` is the busy flag. -/
structure ZenithState where
  conversations : List Conversation
  activeConversationId : Option String
  apiKey : String
  loading : Bool
deriving Repr, DecidableEq

/-- The reducer's action type (`ZenithAction` in ZenithContext.tsx). -/
inductive ZenithAction where
  | setConversations (payload : List Conversation)
  | setActiveConversation (payload : String)
  | createConversation (payload : Conversation)
  | addMessage (conversationId : String) (message : Message)
  | clearConversation
  | setApiKey (payload : String)
  | setLoading (payload : Bool)
deriving Repr, DecidableEq

/-- JavaScript truthiness on a nullable string: `null` and `""` are falsy.
`truthyOpt o` is `o` if truthy, else `none`. -/
def truthyOpt : Option String → Option String
  | none => none
  | some s => if s = "" then none else some s

/-- JavaScript `a || b` for a nullable string `a` and string default `b`. -/
def jsOr (a : Option String) (b : String) : String :=
  match a with
  | none => b
  | some s => if s = "" then b else s

/-- `initialState` of ZenithContext.tsx; `envKey` is
`import.meta.env.VITE_GEMINI_API_KEY || ''` (the empty string when unset). -/
def initialState (envKey : String) : ZenithState :=
  { conversations := []
    activeConversationId := none
    apiKey := envKey
    loading := false }

/-- `zenithReducer` of ZenithContext.tsx. `now` is the instant the reducer's
`new Date()` calls observe while processing this action. -/
def zenithReducer (state : ZenithState) (action : ZenithAction) (now : Nat) : ZenithState :=
  match action with
  | .setConversations payload => { state with conversations := payload }
  | .setActiveConversation payload => { state with activeConversationId := some payload }
  | .createConversation payload =>
      { state with
        conversations := state.conversations ++ [payload]
        activeConversationId := some payload.id }
  | .addMessage conversationId message =>
      { state with
        conversations := state.conversations.map (fun conversation =>
          if conversation.id = conversationId then
            { conversation with
              messages := conversation.messages ++ [message]
              updatedAt := now
              title :=
                if conversation.title = "New conversation" ∧
                    (conversation.messages ++ [message]).length = 1 then
                  message.content.take 30 ++ "..."
                else conversation.title }
          else conversation) }
  | .clearConversation =>
      match truthyOpt state.activeConversationId with
      | none => state
      | some cid =>
          { state with
            conversations := state.conversations.map (fun conversation =>
              if conversation.id = cid then
                { conversation with messages := [], updatedAt := now }
              else conversation) }
  | .setApiKey payload => { state with apiKey := payload }
  | .setLoading payload => { state with loading := payload }

/-- The conversation built by `createNewConversation` in ZenithContext.tsx. -/
def newConversation (id : String) (now : Nat) : Conversation :=
  { id := id
    title := "New conversation"
    messages := []
    createdAt := now
    updatedAt := now }

/-- The possible outcomes of the network phase of `sendMessage`
(`fetch` + `response.json()` + status check + `data.choices[0].message.content`).
Every constructor except `success` makes the try block throw; all thrown values
are `Error` objects whose `.message` is the carried string. -/
inductive FetchOutcome where
  | fetchErr (msg : String)
  | jsonErr (msg : String)
  | httpErr (serverMsg : Option String)
  | extractErr (msg : String)
  | success (content : String)
deriving Repr, DecidableEq

/-- The `conversationId` resolved at the top of `sendMessage`:
`state.activeConversationId || state.conversations[state.conversations.length - 1].id`,
reading the render-time snapshot. `none` models the `TypeError` thrown when the
snapshot's conversation list is empty and no id is active (indexing `undefined`). -/
def resolvedConversationId (state : ZenithState) : Option String :=
  match truthyOpt state.activeConversationId with
  | some cid => some cid
  | none => state.conversations.getLast?.map Conversation.id

/-- The server-side failure description produced inside the try block of
`sendMessage` for a given snapshot credential and network outcome, when the
try block reaches the corresponding step and fails there. -/
def tryFailureMessage (apiKey : String) (outcome : FetchOutcome) : Option String :=
  if apiKey = "" then some "Please set your Gemini API key in the settings"
  else
    match outcome with
    | .fetchErr msg => some msg
    | .jsonErr msg => some msg
    | .httpErr serverMsg => some (jsOr serverMsg "Failed to get response from Gemini API")
    | .extractErr msg => some msg
    | .success _ => none

/-- `sendMessage` of ZenithContext.tsx.

`state` is the render-time snapshot captured by the closure; every dispatch
applies `zenithReducer` to the evolving store (which starts equal to the
snapshot), while every read of `state.…` in the source uses the stale snapshot.
`newConvoId`, `userMsgId`, `replyMsgId` are the `nanoid()` results;
`tCreate`, `tUserMsg`, `tReply` the `new Date()` instants of the corresponding
phases; `outcome` the behaviour of the network phase.

Returns the final store state, paired with `true` when the async function
rejects (an exception escapes to the caller) and `false` when it returns
normally. -/
def sendMessage (state : ZenithState) (content : String)
    (newConvoId userMsgId replyMsgId : String)
    (tCreate tUserMsg tReply : Nat) (outcome : FetchOutcome) :
    ZenithState × Bool :=
  let store0 :=
    if truthyOpt state.activeConversationId = none then
      zenithReducer state (.createConversation (newConversation newConvoId tCreate)) tCreate
    else state
  match resolvedConversationId state with
  | none => (store0, true)
  | some conversationId =>
    let userMessage : Message :=
      { id := userMsgId, role := "user", content := content, createdAt := tUserMsg }
    let store1 := zenithReducer store0 (.addMessage conversationId userMessage) tUserMsg
    let store2 := zenithReducer store1 (.setLoading true) tUserMsg
    let tryResult : Except String ZenithState :=
      if state.apiKey = "" then
        .error "Please set your Gemini API key in the settings"
      else
        match state.conversations.find? (fun c => c.id == conversationId) with
        | none => .ok store2
        | some _ =>
          match outcome with
          | .fetchErr msg => .error msg
          | .jsonErr msg => .error msg
          | .httpErr serverMsg => .error (jsOr serverMsg "Failed to get response from Gemini API")
          | .extractErr msg => .error msg
          | .success replyContent =>
              .ok (zenithReducer store2 (.addMessage conversationId
                { id := replyMsgId, role := "assistant", content := replyContent,
                  createdAt := tReply }) tReply)
    let store3 :=
      match tryResult with
      | .ok st => st
      | .error errMsg =>
          zenithReducer store2 (.addMessage conversationId
            { id := replyMsgId, role := "assistant", content := "Error: " ++ errMsg,
              createdAt := tReply }) tReply
    (zenithReducer store3 (.setLoading false) tReply, false)

/-! ## Persistence and rehydration

`localStorage` holds, under two string keys, the JSON serialization of the
conversation list and the plain credential string.  JSON text encoding of the
record structure is external (`JSON.stringify` / `JSON.parse` are standard
built-ins); the stored conversation-list value is therefore modelled as the
structured serialized form, in which every field survives verbatim except the
temporal ones, which `JSON.stringify` renders as text via `Date.prototype.toJSON`
and which the rehydration code turns back into `Date` values with `new Date(text)`.
That built-in pair is modelled by `renderInstant` / `parseInstant`: an injective
decimal rendering of the epoch-millisecond instant together with its exact
parser (the calendar layout of the real ISO string is presentation; the
semantic content is that parsing the rendered text recovers the instant, which
holds of the built-in pair for all valid dates). -/

/-- Little-endian base-10 digits, structurally recursive on a fuel bound
(`fuel ≥ n` suffices, since `n / 10 < n` for positive `n`). -/
def natDigitsAux : Nat → Nat → List Nat
  | _, 0 => []
  | 0, _ + 1 => []
  | fuel + 1, n + 1 => ((n + 1) % 10) :: natDigitsAux fuel ((n + 1) / 10)

/-- Little-endian base-10 digits of `n` (empty for `0`). -/
def natDigits (n : Nat) : List Nat :=
  natDigitsAux n n

/-- Value of a little-endian base-10 digit list. -/
def digitsVal : List Nat → Nat
  | [] => 0
  | d :: ds => d + 10 * digitsVal ds

/-- One decimal digit as a character. -/
def digitToChar (d : Nat) : Char :=
  Char.ofNat (48 + d % 10)

/-- A decimal character back to its digit value. -/
def charToDigit (c : Char) : Nat :=
  c.toNat - 48

/-- Models `Date.prototype.toISOString` (via `toJSON`): the textual rendering
of an instant written into the serialized conversation list. -/
def renderInstant (n : Nat) : String :=
  String.mk ((natDigits n).reverse.map digitToChar)

/-- Models `new Date(text)` applied to a rendered instant: recovers the
epoch-millisecond value from its textual form. -/
def parseInstant (s : String) : Nat :=
  digitsVal ((s.data.map charToDigit).reverse)

/-- A message as it appears in the JSON-serialized conversation list:
`createdAt` has become text. -/
structure SerializedMessage where
  id : String
  role : String
  content : String
  createdAt : String
deriving Repr, DecidableEq

/-- A conversation as it appears in the JSON-serialized conversation list:
both temporal fields have become text. -/
structure SerializedConversation where
  id : String
  title : String
  messages : List SerializedMessage
  createdAt : String
  updatedAt : String
deriving Repr, DecidableEq

/-- `JSON.stringify` on one message: every field verbatim, the `Date` via its
textual rendering. -/
def serializeMessage (m : Message) : SerializedMessage :=
  { id := m.id
    role := m.role
    content := m.content
    createdAt := renderInstant m.createdAt }

/-- `JSON.stringify` on one conversation. -/
def serializeConversation (c : Conversation) : SerializedConversation :=
  { id := c.id
    title := c.title
    messages := c.messages.map serializeMessage
    createdAt := renderInstant c.createdAt
    updatedAt := renderInstant c.updatedAt }

/-- The rehydration mapper of the startup effect (ZenithContext.tsx lines
95–103): spread every field, reconstruct `createdAt`/`updatedAt` of the
conversation and `createdAt` of each message with `new Date(...)`. -/
def rehydrateConversation (convo : SerializedConversation) : Conversation :=
  { id := convo.id
    title := convo.title
    createdAt := parseInstant convo.createdAt
    updatedAt := parseInstant convo.updatedAt
    messages := convo.messages.map (fun msg =>
      { id := msg.id
        role := msg.role
        content := msg.content
        createdAt := parseInstant msg.createdAt }) }

/-- The two `localStorage` keys the provider uses:
`zenith-conversations` (JSON-serialized conversation list, modelled
structurally) and `zenith-api-key` (plain credential string). -/
structure Storage where
  zenithConversations : Option (List SerializedConversation)
  zenithApiKey : Option String
deriving Repr, DecidableEq

/-- The two persistence `useEffect`s of `ZenithProvider` (lines 116–128), run
after a state change: write the serialized conversation list when the list is
non-empty, and write the credential when it is truthy (non-empty). -/
def persistEffects (state : ZenithState) (store : Storage) : Storage :=
  let store1 :=
    if state.conversations.length > 0 then
      { store with zenithConversations := some (state.conversations.map serializeConversation) }
    else store
  if state.apiKey ≠ "" then
    { store1 with zenithApiKey := some state.apiKey }
  else store1

/-- The mount-time rehydration `useEffect` of `ZenithProvider` (lines 89–114):
read both keys, rebuild the conversation list (reconstructing the temporal
fields), dispatch it, make the first rebuilt conversation active when the list
is non-empty, and install a saved credential. `now` is the dispatch instant
(unused by these actions). -/
def startupEffect (state : ZenithState) (store : Storage) (now : Nat) : ZenithState :=
  let state1 :=
    match store.zenithConversations with
    | none => state
    | some savedConversations =>
        let parsedConversations := savedConversations.map rehydrateConversation
        let stateA := zenithReducer state (.setConversations parsedConversations) now
        match parsedConversations with
        | [] => stateA
        | first :: _ => zenithReducer stateA (.setActiveConversation first.id) now
  match truthyOpt store.zenithApiKey with
  | none => state1
  | some savedApiKey => zenithReducer state1 (.setApiKey savedApiKey) now

/-- A sequence of `ADD_MESSAGE` dispatches targeting conversation `cid`; each
element carries the appended message and the instant of its dispatch. -/
def appendRun (s : ZenithState) (cid : String) (ms : List (Message × Nat)) : ZenithState :=
  ms.foldl (fun st p => zenithReducer st (.addMessage cid p.1) p.2) s

/-- All messages of the store, conversation by conversation in list order. -/
def allMessages (s : ZenithState) : List Message :=
  (s.conversations.map Conversation.messages).flatten

/-! ## General lemmas -/

theorem map_id_on {α : Type _} (g : α → α) (l : List α) (h : ∀ x ∈ l, g x = x) :
    l.map g = l := by
  induction l with
  | nil => rfl
  | cons a t ih =>
      rw [List.map_cons, h a (List.mem_cons_self a t),
        ih (fun x hx => h x (List.mem_cons_of_mem a hx))]

theorem find?_append_skip {α : Type _} (p : α → Bool) (l1 l2 : List α)
    (h : ∀ x ∈ l1, p x = false) :
    (l1 ++ l2).find? p = l2.find? p := by
  induction l1 with
  | nil => rfl
  | cons a t ih =>
      rw [List.cons_append, List.find?_cons_of_neg _ (by simp [h a (List.mem_cons_self a t)]),
        ih (fun x hx => h x (List.mem_cons_of_mem a hx))]

theorem truthyOpt_eq_some (o : Option String) (cid : String) (h : truthyOpt o = some cid) :
    o = some cid ∧ cid ≠ "" := by
  cases o with
  | none => simp [truthyOpt] at h
  | some a =>
      simp only [truthyOpt] at h
      by_cases ha : a = ""
      · rw [if_pos ha] at h
        exact absurd h (by simp)
      · rw [if_neg ha] at h
        obtain rfl : a = cid := by injection h
        exact ⟨rfl, ha⟩

/-! ## Reducer lemmas -/

/-- `ADD_MESSAGE` unfolded: the conversation list is mapped, everything else
is untouched. -/
theorem addMessage_eq (s : ZenithState) (cid : String) (m : Message) (t : Nat) :
    zenithReducer s (.addMessage cid m) t =
      { s with
        conversations := s.conversations.map (fun conversation =>
          if conversation.id = cid then
            { conversation with
              messages := conversation.messages ++ [m]
              updatedAt := t
              title :=
                if conversation.title = "New conversation" ∧
                    (conversation.messages ++ [m]).length = 1 then
                  m.content.take 30 ++ "..."
                else conversation.title }
          else conversation) } := rfl

/-- `CLEAR_CONVERSATION` unfolded, when a (truthy) conversation id is active. -/
theorem clearConversation_eq (s : ZenithState) (t : Nat) (cid : String)
    (hact : s.activeConversationId = some cid) (hcid : cid ≠ "") :
    zenithReducer s .clearConversation t =
      { s with
        conversations := s.conversations.map (fun conversation =>
          if conversation.id = cid then
            { conversation with messages := [], updatedAt := t }
          else conversation) } := by
  simp only [zenithReducer, hact, truthyOpt, if_neg hcid]

/-- The conversation-list effect of `ADD_MESSAGE` on a list split around the
(first) conversation carrying the target id. -/
theorem addMessage_decomp (s : ZenithState) (cid : String) (m : Message) (t : Nat)
    (l1 l2 : List Conversation) (c : Conversation)
    (hs : s.conversations = l1 ++ c :: l2) (hc : c.id = cid)
    (hl1 : ∀ x ∈ l1, x.id ≠ cid) :
    (zenithReducer s (.addMessage cid m) t).conversations
      = l1 ++
        ({ c with
            messages := c.messages ++ [m]
            updatedAt := t
            title :=
              if c.title = "New conversation" ∧ (c.messages ++ [m]).length = 1 then
                m.content.take 30 ++ "..."
              else c.title }) ::
        l2.map (fun x =>
          if x.id = cid then
            { x with
              messages := x.messages ++ [m]
              updatedAt := t
              title :=
                if x.title = "New conversation" ∧ (x.messages ++ [m]).length = 1 then
                  m.content.take 30 ++ "..."
                else x.title }
          else x) := by
  obtain ⟨convs, act, key, ld⟩ := s
  simp only at hs
  subst hs
  simp only [zenithReducer, List.map_append, List.map_cons]
  congr 1
  · exact map_id_on _ l1 (fun x hx => if_neg (hl1 x hx))
  · congr 1
    simp [hc]

/-- `addMessage_decomp` when the target id is additionally absent from the
tail: only the split conversation changes. -/
theorem addMessage_decomp_unique (s : ZenithState) (cid : String) (m : Message) (t : Nat)
    (l1 l2 : List Conversation) (c : Conversation)
    (hs : s.conversations = l1 ++ c :: l2) (hc : c.id = cid)
    (hl1 : ∀ x ∈ l1, x.id ≠ cid) (hl2 : ∀ x ∈ l2, x.id ≠ cid) :
    (zenithReducer s (.addMessage cid m) t).conversations
      = l1 ++
        ({ c with
            messages := c.messages ++ [m]
            updatedAt := t
            title :=
              if c.title = "New conversation" ∧ (c.messages ++ [m]).length = 1 then
                m.content.take 30 ++ "..."
              else c.title }) :: l2 := by
  rw [addMessage_decomp s cid m t l1 l2 c hs hc hl1]
  congr 2
  exact map_id_on _ l2 (fun x hx => if_neg (hl2 x hx))

theorem createConversation_conversations (s : ZenithState) (payload : Conversation)
    (t : Nat) :
    (zenithReducer s (.createConversation payload) t).conversations
      = s.conversations ++ [payload] := rfl

/-- The conversation-list effect of `CLEAR_CONVERSATION` on a list split around
the (first) conversation carrying the active id. -/
theorem clearConversation_decomp (s : ZenithState) (t : Nat) (cid : String)
    (l1 l2 : List Conversation) (c : Conversation)
    (hact : s.activeConversationId = some cid) (hcid : cid ≠ "")
    (hs : s.conversations = l1 ++ c :: l2) (hc : c.id = cid)
    (hl1 : ∀ x ∈ l1, x.id ≠ cid) :
    (zenithReducer s .clearConversation t).conversations
      = l1 ++ ({ c with messages := [], updatedAt := t }) ::
          l2.map (fun x =>
            if x.id = cid then { x with messages := ([] : List Message), updatedAt := t }
            else x) := by
  rw [clearConversation_eq s t cid hact hcid]
  simp only [hs, List.map_append, List.map_cons]
  congr 1
  · exact map_id_on _ l1 (fun x hx => if_neg (hl1 x hx))
  · congr 1
    simp [hc]

theorem setLoading_conversations (s : ZenithState) (b : Bool) (t : Nat) :
    (zenithReducer s (.setLoading b) t).conversations = s.conversations := rfl

theorem setLoading_loading (s : ZenithState) (b : Bool) (t : Nat) :
    (zenithReducer s (.setLoading b) t).loading = b := rfl

/-! ## Dispatcher path lemmas -/

/-- The success path of `sendMessage`: active truthy id, target found in the
snapshot, credential present, network outcome successful — the run is the
dispatch chain user-message, loading on, assistant message, loading off. -/
theorem sendMessage_success_eq (s : ZenithState) (content : String)
    (newConvoId userMsgId replyMsgId : String) (tCreate tUserMsg tReply : Nat)
    (replyContent : String) (cid : String) (c : Conversation)
    (htru : truthyOpt s.activeConversationId = some cid)
    (hfind : s.conversations.find? (fun x => x.id == cid) = some c)
    (hkey : s.apiKey ≠ "") :
    sendMessage s content newConvoId userMsgId replyMsgId tCreate tUserMsg tReply
        (.success replyContent)
      = (zenithReducer (zenithReducer (zenithReducer (zenithReducer s
          (.addMessage cid
            { id := userMsgId, role := "user", content := content,
              createdAt := tUserMsg }) tUserMsg)
          (.setLoading true) tUserMsg)
          (.addMessage cid
            { id := replyMsgId, role := "assistant", content := replyContent,
              createdAt := tReply }) tReply)
          (.setLoading false) tReply, false) := by
  have hres : resolvedConversationId s = some cid := by
    simp [resolvedConversationId, htru]
  simp [sendMessage, hres, htru, hfind, hkey]

/-- The catch path of `sendMessage`: the target id resolves, the snapshot
contains the target conversation, and the try block fails with description
`desc` — the run is the dispatch chain (possible creation), user message,
loading on, synthesized error message, loading off. -/
theorem sendMessage_error_eq (s : ZenithState) (content : String)
    (newConvoId userMsgId replyMsgId : String) (tCreate tUserMsg tReply : Nat)
    (outcome : FetchOutcome) (desc : String) (cid : String) (c : Conversation)
    (hres : resolvedConversationId s = some cid)
    (hfail : tryFailureMessage s.apiKey outcome = some desc)
    (hfind : s.conversations.find? (fun x => x.id == cid) = some c) :
    sendMessage s content newConvoId userMsgId replyMsgId tCreate tUserMsg tReply outcome
      = (zenithReducer (zenithReducer (zenithReducer (zenithReducer
          (if truthyOpt s.activeConversationId = none then
            zenithReducer s (.createConversation (newConversation newConvoId tCreate)) tCreate
          else s)
          (.addMessage cid
            { id := userMsgId, role := "user", content := content,
              createdAt := tUserMsg }) tUserMsg)
          (.setLoading true) tUserMsg)
          (.addMessage cid
            { id := replyMsgId, role := "assistant", content := "Error: " ++ desc,
              createdAt := tReply }) tReply)
          (.setLoading false) tReply, false) := by
  by_cases hkey : s.apiKey = ""
  · have hdesc : desc = "Please set your Gemini API key in the settings" := by
      simp [tryFailureMessage, hkey] at hfail
      exact hfail.symm
    subst hdesc
    simp [sendMessage, hres, hkey]
  · rw [tryFailureMessage.eq_def, if_neg hkey] at hfail
    cases outcome with
    | fetchErr m =>
        obtain rfl : m = desc := by simpa using hfail
        simp [sendMessage, hres, hkey, hfind]
    | jsonErr m =>
        obtain rfl : m = desc := by simpa using hfail
        simp [sendMessage, hres, hkey, hfind]
    | httpErr serverMsg =>
        obtain rfl : jsOr serverMsg "Failed to get response from Gemini API" = desc := by
          simpa using hfail
        simp [sendMessage, hres, hkey, hfind]
    | extractErr m =>
        obtain rfl : m = desc := by simpa using hfail
        simp [sendMessage, hres, hkey, hfind]
    | success replyContent => simp at hfail

/-! ## Instant rendering round-trip -/

theorem digitsVal_natDigitsAux (fuel : Nat) :
    ∀ n, n ≤ fuel → digitsVal (natDigitsAux fuel n) = n := by
  induction fuel with
  | zero =>
      intro n hn
      obtain rfl : n = 0 := Nat.le_zero.mp hn
      rfl
  | succ fuel ih =>
      intro n hn
      match n with
      | 0 => rfl
      | n + 1 =>
          rw [natDigitsAux, digitsVal,
            ih ((n + 1) / 10) (by
              have := Nat.div_lt_self (Nat.succ_pos n) (show 1 < 10 by norm_num)
              omega)]
          omega

theorem digitsVal_natDigits (n : Nat) : digitsVal (natDigits n) = n :=
  digitsVal_natDigitsAux n n (Nat.le_refl n)

theorem natDigitsAux_lt_ten (fuel : Nat) : ∀ n, ∀ d ∈ natDigitsAux fuel n, d < 10 := by
  induction fuel with
  | zero =>
      intro n d hd
      match n with
      | 0 => simp [natDigitsAux] at hd
      | n + 1 => simp [natDigitsAux] at hd
  | succ fuel ih =>
      intro n d hd
      match n with
      | 0 => simp [natDigitsAux] at hd
      | n + 1 =>
          rw [natDigitsAux] at hd
          rcases List.mem_cons.mp hd with h | h
          · subst h
            exact Nat.mod_lt _ (by norm_num)
          · exact ih ((n + 1) / 10) d h

theorem natDigits_lt_ten (n : Nat) : ∀ d ∈ natDigits n, d < 10 :=
  natDigitsAux_lt_ten n n

theorem charToDigit_digitToChar (d : Nat) (hd : d < 10) :
    charToDigit (digitToChar d) = d := by
  interval_cases d <;> rfl

theorem parseInstant_renderInstant (n : Nat) : parseInstant (renderInstant n) = n := by
  rw [renderInstant, parseInstant]
  show digitsVal ((((natDigits n).reverse.map digitToChar).map charToDigit).reverse) = n
  rw [List.map_map]
  have h1 : (natDigits n).reverse.map (charToDigit ∘ digitToChar) = (natDigits n).reverse :=
    map_id_on _ _ (fun d hd =>
      charToDigit_digitToChar d (natDigits_lt_ten n d (List.mem_reverse.mp hd)))
  rw [h1, List.reverse_reverse, digitsVal_natDigits]

theorem rehydrate_serialize_conversation (c : Conversation) :
    rehydrateConversation (serializeConversation c) = c := by
  simp only [rehydrateConversation, serializeConversation, parseInstant_renderInstant,
    List.map_map]
  have h1 : ∀ m ∈ c.messages,
      ((fun msg => ({ id := msg.id, role := msg.role, content := msg.content,
                      createdAt := parseInstant msg.createdAt } : Message)) ∘
        serializeMessage) m = m := by
    intro m _
    simp [Function.comp, serializeMessage, parseInstant_renderInstant]
  rw [map_id_on _ _ h1]

/-! ## Claims -/

/-- Claim C7: serializing the conversation list (temporal fields rendered as
text) and reconstructing it with the startup rehydration logic yields the
original list back: identical ids, message roles and contents, and temporal
fields denoting the same instants. -/
theorem serialize_rehydrate_roundtrip (cs : List Conversation) :
    (cs.map serializeConversation).map rehydrateConversation = cs := by
  rw [List.map_map]
  exact map_id_on _ _ (fun c _ => rehydrate_serialize_conversation c)

/-- Claim C8: with an active conversation, `clearMessages` (the
`CLEAR_CONVERSATION` action) empties that conversation's message list and
refreshes its `updatedAt`, while its id, title and `createdAt` and all other
conversations and store fields are unchanged; with no active conversation it
is a no-op. -/
theorem clearMessages_spec (s : ZenithState) (t : Nat) (cid : String)
    (l1 l2 : List Conversation) (c : Conversation)
    (hact : s.activeConversationId = some cid) (hcid : cid ≠ "")
    (hs : s.conversations = l1 ++ c :: l2) (hc : c.id = cid)
    (hl1 : ∀ x ∈ l1, x.id ≠ cid) (hl2 : ∀ x ∈ l2, x.id ≠ cid) :
    ((zenithReducer s .clearConversation t).conversations
        = l1 ++ ({ c with messages := [], updatedAt := t }) :: l2
      ∧ (zenithReducer s .clearConversation t).activeConversationId = s.activeConversationId
      ∧ (zenithReducer s .clearConversation t).apiKey = s.apiKey
      ∧ (zenithReducer s .clearConversation t).loading = s.loading)
    ∧ (∀ (s2 : ZenithState) (t2 : Nat), s2.activeConversationId = none →
        zenithReducer s2 .clearConversation t2 = s2) := by
  constructor
  · refine ⟨?_, ?_, ?_, ?_⟩
    · rw [clearConversation_decomp s t cid l1 l2 c hact hcid hs hc hl1]
      congr 2
      exact map_id_on _ l2 (fun x hx => if_neg (hl2 x hx))
    · rw [clearConversation_eq s t cid hact hcid]
    · rw [clearConversation_eq s t cid hact hcid]
    · rw [clearConversation_eq s t cid hact hcid]
  · intro s2 t2 h2
    simp [zenithReducer, h2, truthyOpt]

/-- Witness for C8 at a concrete store: one active conversation `"c1"` holding
one message, cleared at instant `9`. -/
theorem clearMessages_spec_witness :
    ((zenithReducer
        { conversations := [{ id := "c1", title := "T",
                              messages := [{ id := "m1", role := "user", content := "hi",
                                             createdAt := 3 }],
                              createdAt := 3, updatedAt := 4 }],
          activeConversationId := some "c1", apiKey := "k", loading := false }
        .clearConversation 9).conversations
        = [{ id := "c1", title := "T", messages := [], createdAt := 3, updatedAt := 9 }]
      ∧ (zenithReducer
        { conversations := [{ id := "c1", title := "T",
                              messages := [{ id := "m1", role := "user", content := "hi",
                                             createdAt := 3 }],
                              createdAt := 3, updatedAt := 4 }],
          activeConversationId := some "c1", apiKey := "k", loading := false }
        .clearConversation 9).activeConversationId = some "c1"
      ∧ (zenithReducer
        { conversations := [{ id := "c1", title := "T",
                              messages := [{ id := "m1", role := "user", content := "hi",
                                             createdAt := 3 }],
                              createdAt := 3, updatedAt := 4 }],
          activeConversationId := some "c1", apiKey := "k", loading := false }
        .clearConversation 9).apiKey = "k"
      ∧ (zenithReducer
        { conversations := [{ id := "c1", title := "T",
                              messages := [{ id := "m1", role := "user", content := "hi",
                                             createdAt := 3 }],
                              createdAt := 3, updatedAt := 4 }],
          activeConversationId := some "c1", apiKey := "k", loading := false }
        .clearConversation 9).loading = false)
    ∧ (∀ (s2 : ZenithState) (t2 : Nat), s2.activeConversationId = none →
        zenithReducer s2 .clearConversation t2 = s2) :=
  clearMessages_spec
    { conversations := [{ id := "c1", title := "T",
                          messages := [{ id := "m1", role := "user", content := "hi",
                                         createdAt := 3 }],
                          createdAt := 3, updatedAt := 4 }],
      activeConversationId := some "c1", apiKey := "k", loading := false }
    9 "c1" [] []
    { id := "c1", title := "T",
      messages := [{ id := "m1", role := "user", content := "hi", createdAt := 3 }],
      createdAt := 3, updatedAt := 4 }
    rfl (by decide) rfl rfl (by simp) (by simp)

/-- Counterexample to claim C9 as stated: clearing does not preserve both
timestamps — at a concrete store whose active conversation has
`updatedAt = 0`, clearing at instant `1` changes the conversation's
`updatedAt`. -/
theorem clear_timestamps_cex :
    ¬ ((zenithReducer
          { conversations := [{ id := "c1", title := "T",
                                messages := [{ id := "m1", role := "user", content := "hi",
                                               createdAt := 0 }],
                                createdAt := 0, updatedAt := 0 }],
            activeConversationId := some "c1", apiKey := "", loading := false }
          .clearConversation 1).conversations.map Conversation.updatedAt
        = [0]) := by decide

/-- Claim C9 (amended): the clear operation empties the active conversation's
message list while preserving its identity (id), title and `createdAt`; its
`updatedAt` is refreshed to the instant of the clear (it is not preserved). -/
theorem clear_preserves_identity (s : ZenithState) (t : Nat) (cid : String)
    (l1 l2 : List Conversation) (c : Conversation)
    (hact : s.activeConversationId = some cid) (hcid : cid ≠ "")
    (hs : s.conversations = l1 ++ c :: l2) (hc : c.id = cid)
    (hl1 : ∀ x ∈ l1, x.id ≠ cid) :
    ((zenithReducer s .clearConversation t).conversations.find? (fun x => x.id == cid))
      = some { c with messages := [], updatedAt := t } := by
  rw [clearConversation_decomp s t cid l1 l2 c hact hcid hs hc hl1]
  rw [find?_append_skip _ l1 _ (fun x hx => by
    simp only [beq_eq_false_iff_ne, ne_eq]
    exact hl1 x hx)]
  rw [List.find?_cons_of_pos _ (by simp [hc])]

/-- Witness for the amended C9 at a concrete store. -/
theorem clear_preserves_identity_witness :
    ((zenithReducer
        { conversations := [{ id := "c1", title := "T",
                              messages := [{ id := "m1", role := "user", content := "hi",
                                             createdAt := 3 }],
                              createdAt := 3, updatedAt := 4 }],
          activeConversationId := some "c1", apiKey := "", loading := false }
        .clearConversation 7).conversations.find? (fun x => x.id == "c1"))
      = some { id := "c1", title := "T", messages := [], createdAt := 3, updatedAt := 7 } :=
  clear_preserves_identity
    { conversations := [{ id := "c1", title := "T",
                          messages := [{ id := "m1", role := "user", content := "hi",
                                         createdAt := 3 }],
                          createdAt := 3, updatedAt := 4 }],
      activeConversationId := some "c1", apiKey := "", loading := false }
    7 "c1" [] []
    { id := "c1", title := "T",
      messages := [{ id := "m1", role := "user", content := "hi", createdAt := 3 }],
      createdAt := 3, updatedAt := 4 }
    rfl (by decide) rfl rfl (by simp)

/-- Claim C10: at startup, rehydrating a non-empty saved conversation list
makes its first conversation the active one; with no saved list the active
conversation id stays `null`. -/
theorem startup_active_selection (envKey : String) (store : Storage) (now : Nat) :
    (∀ (first : SerializedConversation) (rest : List SerializedConversation),
        store.zenithConversations = some (first :: rest) →
        (startupEffect (initialState envKey) store now).activeConversationId
          = some (rehydrateConversation first).id)
    ∧ (store.zenithConversations = none →
        (startupEffect (initialState envKey) store now).activeConversationId = none) := by
  constructor
  · intro first rest h
    simp only [startupEffect, h, List.map_cons]
    cases htk : truthyOpt store.zenithApiKey <;>
      simp [zenithReducer, initialState]
  · intro h
    simp only [startupEffect, h]
    cases htk : truthyOpt store.zenithApiKey <;>
      simp [zenithReducer, initialState]

/-- Witness for C10: a storage holding one saved conversation with id `"c1"`
makes `"c1"` active; the no-saved-list part is exercised at an empty storage. -/
theorem startup_active_selection_witness :
    (startupEffect (initialState "")
        { zenithConversations :=
            some [{ id := "c1", title := "T", messages := [],
                    createdAt := "3", updatedAt := "4" }],
          zenithApiKey := none } 0).activeConversationId = some "c1"
    ∧ (startupEffect (initialState "")
        { zenithConversations := none, zenithApiKey := none } 0).activeConversationId
      = none :=
  ⟨(startup_active_selection ""
      { zenithConversations :=
          some [{ id := "c1", title := "T", messages := [],
                  createdAt := "3", updatedAt := "4" }],
        zenithApiKey := none } 0).1
      { id := "c1", title := "T", messages := [], createdAt := "3", updatedAt := "4" } [] rfl,
    (startup_active_selection ""
      { zenithConversations := none, zenithApiKey := none } 0).2 rfl⟩

/-- Claim C5: over any sequence of `ADD_MESSAGE` dispatches targeting a
conversation, title auto-derivation fires exactly once — precisely when the
message count goes from 0 to 1 while the title still equals the default
`"New conversation"`, in which case the title becomes the first appended
message's content truncated to 30 characters with `"..."` appended; in every
other situation the title after the whole sequence is the original one. -/
theorem title_autoderivation (cid : String) (l1 : List Conversation)
    (hl1 : ∀ x ∈ l1, x.id ≠ cid)
    (ms : List (Message × Nat)) (s : ZenithState) (l2 : List Conversation)
    (c : Conversation)
    (hs : s.conversations = l1 ++ c :: l2) (hc : c.id = cid) :
    (ms = [] →
      ((appendRun s cid ms).conversations.find? (fun x => x.id == cid)).map Conversation.title
        = some c.title)
    ∧ (∀ (m : Message) (t : Nat) (rest : List (Message × Nat)), ms = (m, t) :: rest →
      ((appendRun s cid ms).conversations.find? (fun x => x.id == cid)).map Conversation.title
        = some (if c.messages = [] ∧ c.title = "New conversation" then
                  m.content.take 30 ++ "..."
                else c.title)) := by
  induction ms generalizing s l2 c with
  | nil =>
      refine ⟨fun _ => ?_, fun m t rest h => absurd h (by simp)⟩
      simp only [appendRun, List.foldl_nil]
      rw [hs, find?_append_skip _ l1 _ (fun x hx => by
        simp only [beq_eq_false_iff_ne, ne_eq]
        exact hl1 x hx)]
      rw [List.find?_cons_of_pos _ (by simp [hc])]
      rfl
  | cons p ms ih =>
      obtain ⟨m, t⟩ := p
      refine ⟨fun h => absurd h (by simp), fun m0 t0 rest h => ?_⟩
      have hmt : (m = m0 ∧ t = t0) ∧ ms = rest := by
        simpa using h
      obtain ⟨⟨rfl, rfl⟩, rfl⟩ := hmt
      have hs' := addMessage_decomp s cid m t l1 l2 c hs hc hl1
      have ihs := ih (zenithReducer s (.addMessage cid m) t) _ _ hs' hc
      have hrun : appendRun s cid ((m, t) :: ms)
          = appendRun (zenithReducer s (.addMessage cid m) t) cid ms := rfl
      have htitle :
          ({ c with
              messages := c.messages ++ [m]
              updatedAt := t
              title :=
                if c.title = "New conversation" ∧ (c.messages ++ [m]).length = 1 then
                  m.content.take 30 ++ "..."
                else c.title } : Conversation).title
            = if c.messages = [] ∧ c.title = "New conversation" then
                m.content.take 30 ++ "..."
              else c.title := by
        by_cases h0 : c.messages = [] <;> by_cases h1 : c.title = "New conversation" <;>
          simp [h0, h1, List.length_append, List.length_eq_zero]
      rw [hrun]
      cases ms with
      | nil =>
          rw [(ihs.1 rfl : _ = _)]
          rw [htitle]
      | cons q qs =>
          obtain ⟨q1, q2⟩ := q
          rw [ihs.2 q1 q2 qs rfl]
          have hne : c.messages ++ [m] ≠ [] := by simp
          rw [if_neg (fun hcontra => hne hcontra.1)]
          rw [htitle]

/-- Witness for C5: appending two messages to a fresh default-titled
conversation derives the title from the first message only. -/
theorem title_autoderivation_witness :
    (((appendRun
        { conversations := [{ id := "c1", title := "New conversation", messages := [],
                              createdAt := 0, updatedAt := 0 }],
          activeConversationId := some "c1", apiKey := "", loading := false }
        "c1"
        [({ id := "m1", role := "user", content := "hello", createdAt := 5 }, 5),
         ({ id := "m2", role := "assistant", content := "world", createdAt := 6 }, 6)]).conversations.find?
        (fun x => x.id == "c1")).map Conversation.title)
      = some ("hello".take 30 ++ "...") := by
  have h := (title_autoderivation "c1" [] (by simp)
      [({ id := "m1", role := "user", content := "hello", createdAt := 5 }, 5),
       ({ id := "m2", role := "assistant", content := "world", createdAt := 6 }, 6)]
      { conversations := [{ id := "c1", title := "New conversation", messages := [],
                            createdAt := 0, updatedAt := 0 }],
        activeConversationId := some "c1", apiKey := "", loading := false }
      []
      { id := "c1", title := "New conversation", messages := [], createdAt := 0,
        updatedAt := 0 }
      rfl rfl).2
      { id := "m1", role := "user", content := "hello", createdAt := 5 } 5
      [({ id := "m2", role := "assistant", content := "world", createdAt := 6 }, 6)] rfl
  simpa using h

theorem persistEffects_zenithConversations (s : ZenithState) (store : Storage) :
    (persistEffects s store).zenithConversations
      = if s.conversations.length > 0 then some (s.conversations.map serializeConversation)
        else store.zenithConversations := by
  simp only [persistEffects]
  split <;> split <;> rfl

theorem persistEffects_zenithApiKey (s : ZenithState) (store : Storage) :
    (persistEffects s store).zenithApiKey
      = if s.apiKey ≠ "" then some s.apiKey else store.zenithApiKey := by
  simp only [persistEffects]
  split <;> split <;> rfl

/-- Counterexample to claim C6 as stated: setting the credential to the empty
string is a credential change after which the credential is NOT written to its
key — the persistence effect leaves the previously stored secret in place. -/
theorem persist_empty_credential_cex :
    (persistEffects
        (zenithReducer
          { conversations := [], activeConversationId := none,
            apiKey := "old-secret", loading := false }
          (.setApiKey "") 0)
        { zenithConversations := none, zenithApiKey := some "old-secret" }).zenithApiKey
        = some "old-secret"
    ∧ (persistEffects
        (zenithReducer
          { conversations := [], activeConversationId := none,
            apiKey := "old-secret", loading := false }
          (.setApiKey "") 0)
        { zenithConversations := none, zenithApiKey := some "old-secret" }).zenithApiKey
      ≠ some (zenithReducer
          { conversations := [], activeConversationId := none,
            apiKey := "old-secret", loading := false }
          (.setApiKey "") 0).apiKey := by
  constructor
  · rfl
  · decide

/-- Claim C6 (amended): after a state change the persistence effects write the
serialized conversation list exactly when the list is non-empty (and every
list-changing reducer operation other than wholesale replacement leaves it
non-empty), and write the credential exactly when it is non-empty; a change of
the credential to the empty string writes nothing, leaving the previously
stored value in place. -/
theorem persistence_spec (s : ZenithState) (store : Storage) :
    (s.conversations ≠ [] →
      (persistEffects s store).zenithConversations
        = some (s.conversations.map serializeConversation))
    ∧ (s.conversations = [] →
      (persistEffects s store).zenithConversations = store.zenithConversations)
    ∧ (s.apiKey ≠ "" → (persistEffects s store).zenithApiKey = some s.apiKey)
    ∧ (s.apiKey = "" → (persistEffects s store).zenithApiKey = store.zenithApiKey)
    ∧ (∀ (payload : Conversation) (t : Nat),
        (zenithReducer s (.createConversation payload) t).conversations ≠ [])
    ∧ (∀ (cid : String) (m : Message) (t : Nat),
        (zenithReducer s (.addMessage cid m) t).conversations ≠ s.conversations →
        (zenithReducer s (.addMessage cid m) t).conversations ≠ [])
    ∧ (∀ (t : Nat),
        (zenithReducer s .clearConversation t).conversations ≠ s.conversations →
        (zenithReducer s .clearConversation t).conversations ≠ []) := by
  refine ⟨?_, ?_, ?_, ?_, ?_, ?_, ?_⟩
  · intro h
    rw [persistEffects_zenithConversations, if_pos (List.length_pos.mpr h)]
  · intro h
    rw [persistEffects_zenithConversations, if_neg (by simp [h])]
  · intro h
    rw [persistEffects_zenithApiKey, if_pos h]
  · intro h
    rw [persistEffects_zenithApiKey, if_neg (by simp [h])]
  · intro payload t
    simp [zenithReducer]
  · intro cid m t hch h0
    have h1 : s.conversations = [] := List.map_eq_nil_iff.mp h0
    exact hch (by simp [zenithReducer, h1])
  · intro t hch h0
    cases hact : truthyOpt s.activeConversationId with
    | none => exact hch (by simp [zenithReducer, hact])
    | some cid =>
        obtain ⟨hA, hne⟩ := truthyOpt_eq_some _ _ hact
        have h2 := h0
        rw [clearConversation_eq s t cid hA hne] at h2
        have h1 : s.conversations = [] := List.map_eq_nil_iff.mp h2
        exact hch (by simp [zenithReducer, hact, h1])

/-- Witness for the amended C6 at concrete stores: a non-empty list and a
non-empty credential are written; an empty credential leaves the stored
secret untouched. -/
theorem persistence_spec_witness :
    (persistEffects
        { conversations := [{ id := "c1", title := "T", messages := [],
                              createdAt := 3, updatedAt := 4 }],
          activeConversationId := some "c1", apiKey := "k", loading := false }
        { zenithConversations := none, zenithApiKey := none }).zenithConversations
      = some [{ id := "c1", title := "T", messages := [], createdAt := "3",
                updatedAt := "4" }]
    ∧ (persistEffects
        { conversations := [{ id := "c1", title := "T", messages := [],
                              createdAt := 3, updatedAt := 4 }],
          activeConversationId := some "c1", apiKey := "k", loading := false }
        { zenithConversations := none, zenithApiKey := none }).zenithApiKey = some "k"
    ∧ (persistEffects
        { conversations := [], activeConversationId := none, apiKey := "",
          loading := false }
        { zenithConversations := none, zenithApiKey := some "old" }).zenithApiKey
      = some "old" := by
  refine ⟨?_, ?_, ?_⟩
  · have h := (persistence_spec
        { conversations := [{ id := "c1", title := "T", messages := [],
                              createdAt := 3, updatedAt := 4 }],
          activeConversationId := some "c1", apiKey := "k", loading := false }
        { zenithConversations := none, zenithApiKey := none }).1 (by simp)
    rw [h]
    decide
  · exact (persistence_spec
        { conversations := [{ id := "c1", title := "T", messages := [],
                              createdAt := 3, updatedAt := 4 }],
          activeConversationId := some "c1", apiKey := "k", loading := false }
        { zenithConversations := none, zenithApiKey := none }).2.2.1 (by decide)
  · exact (persistence_spec
        { conversations := [], activeConversationId := none, apiKey := "",
          loading := false }
        { zenithConversations := none, zenithApiKey := some "old" }).2.2.2.1 rfl

/-- Claim C3: with an active conversation and a credential set, `sendMessage`
with a successful remote response grows that conversation's message list by
exactly two — the user message followed by one assistant-role message whose
content is the first completion choice's text. -/
theorem sendMessage_success_spec (s : ZenithState) (content : String)
    (newConvoId userMsgId replyMsgId : String) (tCreate tUserMsg tReply : Nat)
    (replyContent : String) (cid : String) (l1 l2 : List Conversation) (c : Conversation)
    (hact : s.activeConversationId = some cid) (hcid : cid ≠ "")
    (hkey : s.apiKey ≠ "")
    (hs : s.conversations = l1 ++ c :: l2) (hc : c.id = cid)
    (hl1 : ∀ x ∈ l1, x.id ≠ cid) :
    (((sendMessage s content newConvoId userMsgId replyMsgId tCreate tUserMsg tReply
          (.success replyContent)).1.conversations.find? (fun x => x.id == cid)).map
        Conversation.messages)
      = some (c.messages ++
          [{ id := userMsgId, role := "user", content := content, createdAt := tUserMsg },
           { id := replyMsgId, role := "assistant", content := replyContent,
             createdAt := tReply }]) := by
  have htru : truthyOpt s.activeConversationId = some cid := by
    simp [truthyOpt, hact, hcid]
  have hfind : s.conversations.find? (fun x => x.id == cid) = some c := by
    rw [hs, find?_append_skip _ l1 _ (fun x hx => by
      simp only [beq_eq_false_iff_ne, ne_eq]
      exact hl1 x hx)]
    rw [List.find?_cons_of_pos _ (by simp [hc])]
  rw [sendMessage_success_eq s content newConvoId userMsgId replyMsgId tCreate tUserMsg
    tReply replyContent cid c htru hfind hkey]
  have h1 := addMessage_decomp s cid
    { id := userMsgId, role := "user", content := content, createdAt := tUserMsg }
    tUserMsg l1 l2 c hs hc hl1
  have h3 := addMessage_decomp
    (zenithReducer (zenithReducer s
      (.addMessage cid
        { id := userMsgId, role := "user", content := content, createdAt := tUserMsg })
      tUserMsg) (.setLoading true) tUserMsg)
    cid
    { id := replyMsgId, role := "assistant", content := replyContent, createdAt := tReply }
    tReply l1 _ _ h1 hc hl1
  rw [show (zenithReducer (zenithReducer (zenithReducer (zenithReducer s
      (.addMessage cid
        { id := userMsgId, role := "user", content := content,
          createdAt := tUserMsg }) tUserMsg)
      (.setLoading true) tUserMsg)
      (.addMessage cid
        { id := replyMsgId, role := "assistant", content := replyContent,
          createdAt := tReply }) tReply)
      (.setLoading false) tReply, false).1.conversations
    = (zenithReducer (zenithReducer (zenithReducer s
        (.addMessage cid
          { id := userMsgId, role := "user", content := content,
            createdAt := tUserMsg }) tUserMsg)
        (.setLoading true) tUserMsg)
        (.addMessage cid
          { id := replyMsgId, role := "assistant", content := replyContent,
            createdAt := tReply }) tReply).conversations from rfl]
  rw [h3]
  rw [find?_append_skip _ l1 _ (fun x hx => by
    simp only [beq_eq_false_iff_ne, ne_eq]
    exact hl1 x hx)]
  rw [List.find?_cons_of_pos _ (by simp [hc])]
  simp [List.append_assoc]

/-- Witness for C3 at a concrete store: active conversation `"c1"`, credential
`"k"`, reply `"yo"`. -/
theorem sendMessage_success_spec_witness :
    (((sendMessage
        { conversations := [{ id := "c1", title := "T",
                              messages := [{ id := "m0", role := "user", content := "prev",
                                             createdAt := 1 }],
                              createdAt := 0, updatedAt := 1 }],
          activeConversationId := some "c1", apiKey := "k", loading := false }
        "hello" "nc" "um" "am" 2 3 4
        (.success "yo")).1.conversations.find? (fun x => x.id == "c1")).map
      Conversation.messages)
      = some [{ id := "m0", role := "user", content := "prev", createdAt := 1 },
              { id := "um", role := "user", content := "hello", createdAt := 3 },
              { id := "am", role := "assistant", content := "yo", createdAt := 4 }] := by
  have h := sendMessage_success_spec
    { conversations := [{ id := "c1", title := "T",
                          messages := [{ id := "m0", role := "user", content := "prev",
                                         createdAt := 1 }],
                          createdAt := 0, updatedAt := 1 }],
      activeConversationId := some "c1", apiKey := "k", loading := false }
    "hello" "nc" "um" "am" 2 3 4 "yo" "c1" [] []
    { id := "c1", title := "T",
      messages := [{ id := "m0", role := "user", content := "prev", createdAt := 1 }],
      createdAt := 0, updatedAt := 1 }
    rfl (by decide) (by decide) rfl rfl (by simp)
  simpa using h

/-- Claim C4: with an active conversation and no credential set, `sendMessage`
grows that conversation's message list by exactly two — the user message plus
a synthesized assistant-role error message — and the busy flag is false when
it returns. -/
theorem sendMessage_noCredential_spec (s : ZenithState) (content : String)
    (newConvoId userMsgId replyMsgId : String) (tCreate tUserMsg tReply : Nat)
    (outcome : FetchOutcome) (cid : String) (l1 l2 : List Conversation) (c : Conversation)
    (hact : s.activeConversationId = some cid) (hcid : cid ≠ "")
    (hkey : s.apiKey = "")
    (hs : s.conversations = l1 ++ c :: l2) (hc : c.id = cid)
    (hl1 : ∀ x ∈ l1, x.id ≠ cid) :
    (((sendMessage s content newConvoId userMsgId replyMsgId tCreate tUserMsg tReply
          outcome).1.conversations.find? (fun x => x.id == cid)).map
        Conversation.messages)
      = some (c.messages ++
          [{ id := userMsgId, role := "user", content := content, createdAt := tUserMsg },
           { id := replyMsgId, role := "assistant",
             content := "Error: " ++ "Please set your Gemini API key in the settings",
             createdAt := tReply }])
    ∧ (sendMessage s content newConvoId userMsgId replyMsgId tCreate tUserMsg tReply
        outcome).1.loading = false := by
  have htru : truthyOpt s.activeConversationId = some cid := by
    simp [truthyOpt, hact, hcid]
  have hres : resolvedConversationId s = some cid := by
    simp [resolvedConversationId, htru]
  have hfail : tryFailureMessage s.apiKey outcome
      = some "Please set your Gemini API key in the settings" := by
    simp [tryFailureMessage, hkey]
  have hfind : s.conversations.find? (fun x => x.id == cid) = some c := by
    rw [hs, find?_append_skip _ l1 _ (fun x hx => by
      simp only [beq_eq_false_iff_ne, ne_eq]
      exact hl1 x hx)]
    rw [List.find?_cons_of_pos _ (by simp [hc])]
  rw [sendMessage_error_eq s content newConvoId userMsgId replyMsgId tCreate tUserMsg
    tReply outcome "Please set your Gemini API key in the settings" cid c hres hfail hfind]
  rw [if_neg (by simp [htru])]
  constructor
  · have h1 := addMessage_decomp s cid
      { id := userMsgId, role := "user", content := content, createdAt := tUserMsg }
      tUserMsg l1 l2 c hs hc hl1
    have h3 := addMessage_decomp
      (zenithReducer (zenithReducer s
        (.addMessage cid
          { id := userMsgId, role := "user", content := content, createdAt := tUserMsg })
        tUserMsg) (.setLoading true) tUserMsg)
      cid
      { id := replyMsgId, role := "assistant",
        content := "Error: " ++ "Please set your Gemini API key in the settings",
        createdAt := tReply }
      tReply l1 _ _ h1 hc hl1
    rw [show (zenithReducer (zenithReducer (zenithReducer (zenithReducer s
        (.addMessage cid
          { id := userMsgId, role := "user", content := content,
            createdAt := tUserMsg }) tUserMsg)
        (.setLoading true) tUserMsg)
        (.addMessage cid
          { id := replyMsgId, role := "assistant",
            content := "Error: " ++ "Please set your Gemini API key in the settings",
            createdAt := tReply }) tReply)
        (.setLoading false) tReply, false).1.conversations
      = (zenithReducer (zenithReducer (zenithReducer s
          (.addMessage cid
            { id := userMsgId, role := "user", content := content,
              createdAt := tUserMsg }) tUserMsg)
          (.setLoading true) tUserMsg)
          (.addMessage cid
            { id := replyMsgId, role := "assistant",
              content := "Error: " ++ "Please set your Gemini API key in the settings",
              createdAt := tReply }) tReply).conversations from rfl]
    rw [h3]
    rw [find?_append_skip _ l1 _ (fun x hx => by
      simp only [beq_eq_false_iff_ne, ne_eq]
      exact hl1 x hx)]
    rw [List.find?_cons_of_pos _ (by simp [hc])]
    simp [List.append_assoc]
  · rfl

/-- Witness for C4 at a concrete store: active conversation `"c1"`, empty
credential. -/
theorem sendMessage_noCredential_spec_witness :
    (((sendMessage
        { conversations := [{ id := "c1", title := "T", messages := [],
                              createdAt := 0, updatedAt := 0 }],
          activeConversationId := some "c1", apiKey := "", loading := false }
        "hello" "nc" "um" "am" 2 3 4
        (.success "yo")).1.conversations.find? (fun x => x.id == "c1")).map
      Conversation.messages)
      = some [{ id := "um", role := "user", content := "hello", createdAt := 3 },
              { id := "am", role := "assistant",
                content := "Error: Please set your Gemini API key in the settings",
                createdAt := 4 }]
    ∧ (sendMessage
        { conversations := [{ id := "c1", title := "T", messages := [],
                              createdAt := 0, updatedAt := 0 }],
          activeConversationId := some "c1", apiKey := "", loading := false }
        "hello" "nc" "um" "am" 2 3 4 (.success "yo")).1.loading = false := by
  have h := sendMessage_noCredential_spec
    { conversations := [{ id := "c1", title := "T", messages := [],
                          createdAt := 0, updatedAt := 0 }],
      activeConversationId := some "c1", apiKey := "", loading := false }
    "hello" "nc" "um" "am" 2 3 4 (.success "yo") "c1" [] []
    { id := "c1", title := "T", messages := [], createdAt := 0, updatedAt := 0 }
    rfl (by decide) rfl rfl rfl (by simp)
  simpa using h

/-- Claim C1: whenever the dispatcher resolves a target conversation that the
store contains (with unique ids, per the store invariant) and the try block
fails — during credential validation, the network call, or response
extraction, with failure description `desc` — then `sendMessage` returns
normally (no exception reaches the caller), the busy flag is false on return,
and the global transcript has grown by exactly the user message followed by
one assistant-role message whose content is `"Error: "` followed by `desc`;
in particular exactly one assistant-role message was appended. -/
theorem sendMessage_failure_spec (s : ZenithState) (content : String)
    (newConvoId userMsgId replyMsgId : String) (tCreate tUserMsg tReply : Nat)
    (outcome : FetchOutcome) (desc : String) (cid : String)
    (l1 l2 : List Conversation) (c : Conversation)
    (hres : resolvedConversationId s = some cid)
    (hfail : tryFailureMessage s.apiKey outcome = some desc)
    (hs : s.conversations = l1 ++ c :: l2) (hc : c.id = cid)
    (hl1 : ∀ x ∈ l1, x.id ≠ cid) (hl2 : ∀ x ∈ l2, x.id ≠ cid)
    (hnew : newConvoId ≠ cid) :
    (sendMessage s content newConvoId userMsgId replyMsgId tCreate tUserMsg tReply
        outcome).2 = false
    ∧ (sendMessage s content newConvoId userMsgId replyMsgId tCreate tUserMsg tReply
        outcome).1.loading = false
    ∧ allMessages s
      = (l1.map Conversation.messages).flatten ++ c.messages
          ++ (l2.map Conversation.messages).flatten
    ∧ allMessages (sendMessage s content newConvoId userMsgId replyMsgId tCreate tUserMsg
        tReply outcome).1
      = (l1.map Conversation.messages).flatten ++ c.messages
          ++ [{ id := userMsgId, role := "user", content := content, createdAt := tUserMsg },
              { id := replyMsgId, role := "assistant", content := "Error: " ++ desc,
                createdAt := tReply }]
          ++ (l2.map Conversation.messages).flatten := by
  have hfind : s.conversations.find? (fun x => x.id == cid) = some c := by
    rw [hs, find?_append_skip _ l1 _ (fun x hx => by
      simp only [beq_eq_false_iff_ne, ne_eq]
      exact hl1 x hx)]
    rw [List.find?_cons_of_pos _ (by simp [hc])]
  rw [sendMessage_error_eq s content newConvoId userMsgId replyMsgId tCreate tUserMsg
    tReply outcome desc cid c hres hfail hfind]
  refine ⟨rfl, rfl, ?_, ?_⟩
  · rw [allMessages, hs]
    simp [List.append_assoc]
  · by_cases htru : truthyOpt s.activeConversationId = none
    · rw [if_pos htru]
      have hs0 : (zenithReducer s
          (.createConversation (newConversation newConvoId tCreate)) tCreate).conversations
            = l1 ++ c :: (l2 ++ [newConversation newConvoId tCreate]) := by
        rw [createConversation_conversations, hs]
        simp
      have hl2' : ∀ x ∈ l2 ++ [newConversation newConvoId tCreate], x.id ≠ cid := by
        intro x hx
        rcases List.mem_append.mp hx with h | h
        · exact hl2 x h
        · obtain rfl : x = newConversation newConvoId tCreate := by simpa using h
          simpa [newConversation] using hnew
      have h1 := addMessage_decomp_unique
        (zenithReducer s (.createConversation (newConversation newConvoId tCreate)) tCreate)
        cid
        { id := userMsgId, role := "user", content := content, createdAt := tUserMsg }
        tUserMsg l1 (l2 ++ [newConversation newConvoId tCreate]) c hs0 hc hl1 hl2'
      have h3 := addMessage_decomp_unique
        (zenithReducer (zenithReducer
          (zenithReducer s (.createConversation (newConversation newConvoId tCreate)) tCreate)
          (.addMessage cid
            { id := userMsgId, role := "user", content := content, createdAt := tUserMsg })
          tUserMsg) (.setLoading true) tUserMsg)
        cid
        { id := replyMsgId, role := "assistant", content := "Error: " ++ desc,
          createdAt := tReply }
        tReply l1 (l2 ++ [newConversation newConvoId tCreate]) _ h1 hc hl1 hl2'
      rw [allMessages, setLoading_conversations, h3]
      simp [newConversation, List.append_assoc]
    · rw [if_neg htru]
      have h1 := addMessage_decomp_unique s cid
        { id := userMsgId, role := "user", content := content, createdAt := tUserMsg }
        tUserMsg l1 l2 c hs hc hl1 hl2
      have h3 := addMessage_decomp_unique
        (zenithReducer (zenithReducer s
          (.addMessage cid
            { id := userMsgId, role := "user", content := content, createdAt := tUserMsg })
          tUserMsg) (.setLoading true) tUserMsg)
        cid
        { id := replyMsgId, role := "assistant", content := "Error: " ++ desc,
          createdAt := tReply }
        tReply l1 l2 _ h1 hc hl1 hl2
      rw [allMessages, setLoading_conversations, h3]
      simp [List.append_assoc]

/-- Witness for C1 at a concrete store: active conversation `"c1"`, credential
present, the remote call answering with a non-success status carrying
`"boom"`. -/
theorem sendMessage_failure_spec_witness :
    (sendMessage
        { conversations := [{ id := "c1", title := "T",
                              messages := [{ id := "m0", role := "user", content := "prev",
                                             createdAt := 1 }],
                              createdAt := 0, updatedAt := 1 }],
          activeConversationId := some "c1", apiKey := "k", loading := false }
        "hello" "nc" "um" "am" 2 3 4 (.httpErr (some "boom"))).2 = false
    ∧ (sendMessage
        { conversations := [{ id := "c1", title := "T",
                              messages := [{ id := "m0", role := "user", content := "prev",
                                             createdAt := 1 }],
                              createdAt := 0, updatedAt := 1 }],
          activeConversationId := some "c1", apiKey := "k", loading := false }
        "hello" "nc" "um" "am" 2 3 4 (.httpErr (some "boom"))).1.loading = false
    ∧ allMessages (sendMessage
        { conversations := [{ id := "c1", title := "T",
                              messages := [{ id := "m0", role := "user", content := "prev",
                                             createdAt := 1 }],
                              createdAt := 0, updatedAt := 1 }],
          activeConversationId := some "c1", apiKey := "k", loading := false }
        "hello" "nc" "um" "am" 2 3 4 (.httpErr (some "boom"))).1
      = [{ id := "m0", role := "user", content := "prev", createdAt := 1 },
         { id := "um", role := "user", content := "hello", createdAt := 3 },
         { id := "am", role := "assistant", content := "Error: boom", createdAt := 4 }] := by
  have h := sendMessage_failure_spec
    { conversations := [{ id := "c1", title := "T",
                          messages := [{ id := "m0", role := "user", content := "prev",
                                         createdAt := 1 }],
                          createdAt := 0, updatedAt := 1 }],
      activeConversationId := some "c1", apiKey := "k", loading := false }
    "hello" "nc" "um" "am" 2 3 4 (.httpErr (some "boom")) "boom" "c1" [] []
    { id := "c1", title := "T",
      messages := [{ id := "m0", role := "user", content := "prev", createdAt := 1 }],
      createdAt := 0, updatedAt := 1 }
    rfl rfl rfl rfl (by simp) (by simp) (by decide)
  exact ⟨h.1, h.2.1, by simpa using h.2.2.2⟩

/-- Claim C2 evaluated on the code: with no active conversation, `sendMessage`
does NOT deliver the user message to the conversation it just created. With an
empty prior list the stale snapshot makes `state.conversations[length - 1].id`
a `TypeError` — the returned promise rejects (second component `true`) and no
message is appended anywhere; with a non-empty prior list the user message and
the reply land in the last pre-existing conversation (`"old"`), while the
newly created conversation (`"nc"`) stays empty. -/
theorem sendMessage_inactive_bug :
    (sendMessage
        { conversations := [], activeConversationId := none, apiKey := "k",
          loading := false }
        "hello" "nc" "um" "am" 0 1 2 (.success "yo")).2 = true
    ∧ allMessages (sendMessage
        { conversations := [], activeConversationId := none, apiKey := "k",
          loading := false }
        "hello" "nc" "um" "am" 0 1 2 (.success "yo")).1 = []
    ∧ (((sendMessage
        { conversations := [{ id := "old", title := "T", messages := [],
                              createdAt := 0, updatedAt := 0 }],
          activeConversationId := none, apiKey := "k", loading := false }
        "hello" "nc" "um" "am" 0 1 2 (.success "yo")).1.conversations.find?
        (fun x => x.id == "nc")).map Conversation.messages) = some []
    ∧ (((sendMessage
        { conversations := [{ id := "old", title := "T", messages := [],
                              createdAt := 0, updatedAt := 0 }],
          activeConversationId := none, apiKey := "k", loading := false }
        "hello" "nc" "um" "am" 0 1 2 (.success "yo")).1.conversations.find?
        (fun x => x.id == "old")).map Conversation.messages)
      = some [{ id := "um", role := "user", content := "hello", createdAt := 1 },
              { id := "am", role := "assistant", content := "yo", createdAt := 2 }] := by
  refine ⟨by decide, by decide, by decide, by decide⟩

end Zenith
